import Mathlib

/-!
Verification of the subject/role provisioning workflow of the moris_slave
Discord bot, shallowly embedded from
src/services/subjectHelperService/SubjectHelperService.ts and the
SlaveWhipperService. Remote platform state (channels, roles, membership) is
modelled as explicit data threaded through each handler; every remote API
call a handler performs is also recorded in an action trace.
-/

/-- Channel kinds relevant to the service: a grouping category, a forum
channel, or any other text-like channel. -/
inductive ChannelType where
  | category
  | forum
  | text
  deriving Repr, DecidableEq

/-- A guild channel: identifier, display name, kind, and optional parent
category identifier. -/
structure Channel where
  id : Nat
  name : String
  type : ChannelType
  parentId : Option Nat
  deriving Repr, DecidableEq

/-- A guild role: identifier, display name, and color token. -/
structure Role where
  id : Nat
  name : String
  color : String
  deriving Repr, DecidableEq

/-- The guild-scoped directory of channels and roles. `nextId` supplies fresh
identifiers for newly created channels and roles. -/
structure Guild where
  channels : List Channel
  roles : List Role
  nextId : Nat
  deriving Repr, DecidableEq

/-- Character-list version of JavaScript `String.prototype.startsWith`. -/
def charsStartWith : List Char → List Char → Bool
  | _, [] => true
  | [], _ :: _ => false
  | c :: cs, d :: ds => c == d && charsStartWith cs ds

/-- Character-list version of JavaScript `String.prototype.includes`:
true when the pattern occurs as a contiguous substring. -/
def charsInclude : List Char → List Char → Bool
  | [], pat => charsStartWith [] pat
  | c :: cs, pat => charsStartWith (c :: cs) pat || charsInclude cs pat

/-- JavaScript `String.prototype.includes` on Lean strings. -/
def strIncludes (s pat : String) : Bool :=
  charsInclude s.data pat.data

/-- JavaScript `String.prototype.endsWith` on Lean strings. -/
def strEndsWith (s suffixStr : String) : Bool :=
  charsStartWith s.data.reverse suffixStr.data.reverse

/-- JavaScript `String.prototype.toLowerCase` on Lean strings, computed on
the character list. -/
def strToLower (s : String) : String :=
  String.mk (s.data.map Char.toLower)

/-- Character-list version of JavaScript `String.prototype.replace` with a
string pattern: only the first occurrence is replaced. -/
def charsReplaceFirst : List Char → List Char → List Char → List Char
  | [], _, _ => []
  | c :: cs, pat, repl =>
    if charsStartWith (c :: cs) pat then repl ++ (c :: cs).drop pat.length
    else c :: charsReplaceFirst cs pat repl

/-- Modelled from the spec: src/constants/channels.ts is not under src/. The
fixed display name of the well-known category grouping all subject channels;
no claim depends on the concrete value. -/
def CATEGORY_CHANNEL_NAME : String := "subject-helper"

/-- Modelled from the spec: src/constants/channels.ts is not under src/. The
fixed "category" channel kind used for the well-known category. -/
def CATEGORY_CHANNEL_TYPE : ChannelType := ChannelType.category

/-- Modelled from the spec: src/constants/channels.ts is not under src/. The
forum channel kind used for subject channels. -/
def FORUM_CHANNEL_TYPE : ChannelType := ChannelType.forum

/-- Modelled from the spec: src/constants/inputIds.ts is not under src/. The
opaque custom id of the helper-role select menu; no claim depends on it. -/
def SELECT_HELPER_ROLES_ID : String := "select-helper-roles"

/-- Embeds `guild.channels.cache.find` in `getCategoryId`: the first channel
whose type is the fixed category kind and whose name is the fixed category
name. -/
def findCategory (g : Guild) : Option Channel :=
  g.channels.find? (fun c =>
    decide (c.type = CATEGORY_CHANNEL_TYPE) && c.name == CATEGORY_CHANNEL_NAME)

/-- Embeds `guild.channels.create`: appends a fresh channel to the guild and
returns it together with the updated guild. -/
def channelsCreate (g : Guild) (name : String) (ty : ChannelType)
    (parent : Option Nat) : Channel × Guild :=
  let c : Channel := ⟨g.nextId, name, ty, parent⟩
  (c, { channels := g.channels ++ [c], roles := g.roles, nextId := g.nextId + 1 })

/-- Embeds `guild.roles.create`: appends a fresh role to the guild and returns
it together with the updated guild. -/
def rolesCreate (g : Guild) (name : String) (color : String) : Role × Guild :=
  let r : Role := ⟨g.nextId, name, color⟩
  (r, { channels := g.channels, roles := g.roles ++ [r], nextId := g.nextId + 1 })

/-- The mutable per-instance state of `SubjectHelperService`: the memoized
category channel id (`this.categoryChannelId`, unset on construction). -/
structure SubjectHelperSvc where
  categoryChannelId : Option Nat
  deriving Repr, DecidableEq

/-- Embeds `getCategoryId`: returns the memoized id when set; otherwise looks
the category up by the fixed name and kind, creating it when absent, and
memoizes the result. -/
def getCategoryId (s : SubjectHelperSvc) (g : Guild) :
    Nat × SubjectHelperSvc × Guild :=
  match s.categoryChannelId with
  | some cid => (cid, s, g)
  | none =>
    match findCategory g with
    | none =>
      let created := channelsCreate g CATEGORY_CHANNEL_NAME CATEGORY_CHANNEL_TYPE none
      (created.1.id, ⟨some created.1.id⟩, created.2)
    | some cat => (cat.id, ⟨some cat.id⟩, g)

/-- An incoming chat-command interaction: the invoking user, their display
name, the raw command options (name/value pairs), and the invoking member's
current role ids (`interaction.member.roles.cache`). -/
structure Interaction where
  userId : Nat
  userDisplayName : String
  optionsData : List (String × String)
  memberRoleIds : List Nat
  deriving Repr, DecidableEq

/-- A select-menu component interaction: the author and the selected values
(role ids). The menu permits empty selections, so `values` may be empty. -/
structure SelectEvent where
  userId : Nat
  values : List Nat
  deriving Repr, DecidableEq

/-- An entry of the `helperRoles` array built by `handleBecomeHelper`: role
id, raw role name, and the derived human-readable subject label. -/
structure HelperRoleEntry where
  id : Nat
  role : String
  subject : String
  deriving Repr, DecidableEq

/-- The string select menu built by `handleBecomeHelper`: custom id,
placeholder, minimum number of selected values, and (label, value) options. -/
structure SelectMenu where
  customId : String
  placeholder : String
  minValues : Nat
  options : List (String × Nat)
  deriving Repr, DecidableEq

/-- Remote API calls and reply operations a handler performs, in order. -/
inductive ApiAction where
  | reply (content : String) (ephemeral : Bool)
  | replyMenu (menu : SelectMenu)
  | deleteReply
  | followUp (content : String)
  | addRoleToMember (userId roleId : Nat)
  | deferReply
  | editReply (content : String)
  deriving Repr, DecidableEq

/-- True when the trace contains a role-grant call. -/
def hasAddAction (as : List ApiAction) : Bool :=
  as.any (fun a =>
    match a with
    | ApiAction.addRoleToMember _ _ => true
    | _ => false)

/-- How a handler run ends: normal completion, or a JavaScript error escaping
the handler. -/
inductive JsError where
  | thrown (msg : String)
  | typeError
  | timeout
  | remote (msg : String)
  deriving Repr, DecidableEq

/-- Embeds the `subject` field computed per helper role:
`r.name[0].toUpperCase() + r.name.slice(1).replace("-helper", "")`. The empty
branch is unreachable for the names this is applied to, which end in
"-helper" and are therefore nonempty. -/
def subjectLabel (roleName : String) : String :=
  match roleName.data with
  | [] => ""
  | c :: rest => String.mk (c.toUpper :: charsReplaceFirst rest "-helper".data [])

/-- Embeds the `helperRoles` array: every guild role whose name ends in
"-helper", with its derived subject label. -/
def helperRolesOf (g : Guild) : List HelperRoleEntry :=
  (g.roles.filter (fun r => strEndsWith r.name "-helper")).map
    (fun r => ⟨r.id, r.name, subjectLabel r.name⟩)

/-- Embeds the `StringSelectMenuBuilder` call: custom id
`SELECT_HELPER_ROLES_ID`, the fixed placeholder, `min_values: 0`, and one
option per helper role labelled by its subject. -/
def subjectSelect (helperRoles : List HelperRoleEntry) : SelectMenu :=
  ⟨SELECT_HELPER_ROLES_ID, "Select a subject to become a helper", 0,
    helperRoles.map (fun r => (r.subject, r.id))⟩

/-- Embeds the `collectorFilter`: accepts a component interaction exactly when
its author is the user who invoked the command. -/
def collectorFilterPasses (i : Interaction) (e : SelectEvent) : Bool :=
  e.userId == i.userId

/-- Embeds `response.awaitMessageComponent` with the collector filter and the
10000 ms timeout: `events` are the component interactions arriving within the
window, in order; the promise resolves with the first one passing the filter
and rejects with a timeout error (here `none`) when none does. -/
def awaitMessageComponent (i : Interaction) (events : List SelectEvent) :
    Option SelectEvent :=
  events.find? (collectorFilterPasses i)

/-- Embeds the message replying that the selected role is already held. -/
def alreadyHaveMsg (sr : HelperRoleEntry) : String :=
  "You already have the role " ++ sr.role ++ "! So I won\x27t add it again."

/-- Embeds the ephemeral congratulation reply after a successful grant. -/
def helperCongratsPrivate (sr : HelperRoleEntry) : String :=
  "Congrats on becoming a helper in " ++ sr.subject ++
  "! Thanks for helping out the community <3.\nYou have been promoted to " ++
  sr.role ++ " and will be pinged whenever someone posts in the " ++
  sr.subject ++ " forum channel."

/-- Embeds the public follow-up announcement after a successful grant. -/
def helperCongratsPublic (displayName : String) (sr : HelperRoleEntry) : String :=
  "Congrats to " ++ displayName ++ " for becoming a helper in " ++ sr.subject ++ "!"

/-- Outcome of a `handleBecomeHelper` run: how it ended, the requesting
member's role ids afterwards, and the trace of performed operations. -/
structure BecomeHelperResult where
  result : Except JsError Unit
  memberRoleIds : List Nat
  actions : List ApiAction
  deriving Repr

/-- Embeds the `selectedRole` lookup: the code reads
`selectedSubjects.values[0]` unconditionally (undefined when the selection is
empty) and searches `helperRoles` for a matching role id; no role id equals
the undefined value, so an empty selection yields no role. -/
def selectedRoleOf (helperRoles : List HelperRoleEntry) (values : List Nat) :
    Option HelperRoleEntry :=
  match values.head? with
  | none => none
  | some v => helperRoles.find? (fun r => r.id == v)

/-- Embeds the body of `handleBecomeHelper` after the awaited selection
resolves (`sel = some ev`) or times out (`sel = none`). On timeout the catch
block catches the rejection and immediately rethrows it unchanged, modelled
as the `timeout` error outcome. On a selection, the code reads
`selectedSubjects.values[0]` unconditionally and looks the role up in
`helperRoles`; when the lookup yields no role (in particular for an empty
selection), the subsequent `selectedRole.id` field access is a TypeError on
undefined, modelled as the `typeError` outcome. Otherwise, a member already
holding the role gets the already-held reply and no grant; a member not
holding it gets the role added, the private reply, and the public follow-up. -/
def becomeHelperStep (i : Interaction) (g : Guild) (sel : Option SelectEvent) :
    BecomeHelperResult :=
  let helperRoles := helperRolesOf g
  let a0 : List ApiAction := [ApiAction.replyMenu (subjectSelect helperRoles)]
  match sel with
  | none => ⟨Except.error JsError.timeout, i.memberRoleIds, a0⟩
  | some ev =>
    let a1 := a0 ++ [ApiAction.deleteReply]
    match selectedRoleOf helperRoles ev.values with
    | none => ⟨Except.error JsError.typeError, i.memberRoleIds, a1⟩
    | some sr =>
      if i.memberRoleIds.contains sr.id then
        ⟨Except.ok (), i.memberRoleIds,
          a1 ++ [ApiAction.reply (alreadyHaveMsg sr) true]⟩
      else
        ⟨Except.ok (), i.memberRoleIds ++ [sr.id],
          a1 ++ [ApiAction.addRoleToMember i.userId sr.id,
                 ApiAction.reply (helperCongratsPrivate sr) true,
                 ApiAction.followUp (helperCongratsPublic i.userDisplayName sr)]⟩

/-- Embeds `handleBecomeHelper`: builds the helper-role list and select menu,
replies with it, awaits the filtered selection, and processes the outcome. -/
def handleBecomeHelper (i : Interaction) (events : List SelectEvent) (g : Guild) :
    BecomeHelperResult :=
  becomeHelperStep i g (awaitMessageComponent i events)

/-- The strongly typed record produced by option validation. -/
structure Options where
  name : String
  color : String
  emoji : String
  deriving Repr, DecidableEq

/-- Value of a named command option, embedding the options-to-object loop of
`getOptions`. -/
def optionValue (opts : List (String × String)) (key : String) : Option String :=
  (opts.find? (fun p => p.1 == key)).map (fun p => p.2)

/-- Hexadecimal digit test used by the color-token check. -/
def isHexDigit (c : Char) : Bool :=
  c.isDigit || (('a' : Char) ≤ c && c ≤ ('f' : Char)) || (('A' : Char) ≤ c && c ≤ ('F' : Char))

/-- A color token of the form used by the bot: a hash sign followed by six
hexadecimal digits. -/
def isColorToken (s : String) : Bool :=
  charsStartWith s.data ['#'] && s.data.length == 7 && (s.data.drop 1).all isHexDigit

/-- A single emoji, modelled as a string of exactly one scalar value. -/
def isSingleEmoji (s : String) : Bool :=
  s.data.length == 1

/-- Modelled from the spec:
src/services/subjectHelperService/helperSchema.ts is not under src/. The yup
schema validates the raw options into a strongly typed record of name, color
and emoji, failing with a message naming the first offending field and its
expected constraint: name a required non-empty string, color a valid color
token, emoji a single-emoji string. -/
def helperSchemaValidate (opts : List (String × String)) : Except String Options :=
  match optionValue opts "name" with
  | none => Except.error "name is a required field"
  | some nameV =>
    if nameV = "" then Except.error "name must be a non-empty string"
    else
      match optionValue opts "color" with
      | none => Except.error "color is a required field"
      | some colorV =>
        if isColorToken colorV = false then Except.error "color must be a valid color token"
        else
          match optionValue opts "emoji" with
          | none => Except.error "emoji is a required field"
          | some emojiV =>
            if isSingleEmoji emojiV = false then Except.error "emoji must be a single emoji"
            else Except.ok ⟨nameV, colorV, emojiV⟩

/-- The channel list computed by the filter inside `isSubjectNameUnique`:
channels whose parent is the category and whose raw name contains the
lowercased candidate name. The source then discards this list through the
`.values` slip below. -/
def duplicateChannels (g : Guild) (categoryId : Nat) (subjectName : String) :
    List Channel :=
  g.channels.filter (fun c =>
    c.parentId == some categoryId && strIncludes c.name (strToLower subjectName))

/-- JavaScript `Function.prototype.length` of `Map.prototype.values`: the
number of declared parameters of the method, which is zero. In
`isSubjectNameUnique` the source reads `.filter(...).values` without the
call parentheses, so the local `channels` is this method value and
`channels.length` is this parameter count rather than an element count. -/
def valuesMethodParamCount : Nat := 0

/-- The duplicate test the spec describes: some existing channel under the
category whose name contains the candidate name, case-insensitively. Stated
from the spec wording, for comparison with what the code computes. -/
def specHasDuplicate (g : Guild) (categoryId : Nat) (name : String) : Bool :=
  g.channels.any (fun c =>
    c.parentId == some categoryId && strIncludes (strToLower c.name) (strToLower name))

/-- Embeds `isSubjectNameUnique`: resolves the category, filters the cached
channels, then evaluates `!channels.length` where `channels` is the uncalled
`.values` method reference, so the returned flag is
`valuesMethodParamCount == 0` and the filtered list is discarded. -/
def isSubjectNameUnique (subjectName : String) (s : SubjectHelperSvc) (g : Guild) :
    Bool × SubjectHelperSvc × Guild :=
  let r := getCategoryId s g
  let channelsFiltered := duplicateChannels r.2.2 r.1 subjectName
  let _ := channelsFiltered
  (valuesMethodParamCount == 0, r.2.1, r.2.2)

/-- Embeds `createSubjectForum`: resolves the category and creates a forum
channel named from the emoji and the subject name under it. -/
def createSubjectForum (subjectName emoji : String) (s : SubjectHelperSvc)
    (g : Guild) : Channel × SubjectHelperSvc × Guild :=
  let r := getCategoryId s g
  let cr := channelsCreate r.2.2 (emoji ++ "-" ++ subjectName) FORUM_CHANNEL_TYPE (some r.1)
  (cr.1, r.2.1, cr.2)

/-- Embeds `createSubjectRole`: creates a role named from the lowercased
subject name with the helper suffix and the given color. -/
def createSubjectRole (subjectName : String) (color : String) (g : Guild) :
    Role × Guild :=
  rolesCreate g (strToLower subjectName ++ "-helper") color

/-- The platform link of a channel, as read from `forum.url`. -/
def channelUrl (c : Channel) : String :=
  "https://discord.com/channels/" ++ toString c.id

/-- Whether the remote role-creation call succeeds. The other remote calls
are modelled as succeeding; the claims under study only exercise failure of
role creation. -/
structure RemoteEnv where
  roleCreateOk : Bool
  deriving Repr, DecidableEq

/-- Outcome of a `handleCreateSubject` run: how it ended, the service state,
the guild afterwards, and the trace of performed reply operations. -/
structure RunResult where
  result : Except JsError Unit
  service : SubjectHelperSvc
  guild : Guild
  actions : List ApiAction
  deriving Repr

/-- Embeds `handleCreateSubject`: validates the options (on failure
`getOptions` replies with the error message and rethrows the validation
error), checks `isSubjectNameUnique` (replying and throwing on a duplicate),
creates the subject forum channel, creates the helper role, and replies with
a reference to both created resources. A failing role creation rethrows the
remote error with no further action and no rollback of the channel. -/
def handleCreateSubject (i : Interaction) (env : RemoteEnv)
    (s : SubjectHelperSvc) (g : Guild) : RunResult :=
  match helperSchemaValidate i.optionsData with
  | Except.error msg =>
      ⟨Except.error (JsError.thrown msg), s, g,
        [ApiAction.reply ("Error: " ++ msg) true]⟩
  | Except.ok o =>
    let u := isSubjectNameUnique o.name s g
    if u.1 = false then
      ⟨Except.error (JsError.thrown "Subject already exists!"), u.2.1, u.2.2,
        [ApiAction.reply "Subject already exists!" true]⟩
    else
      let f := createSubjectForum o.name o.emoji u.2.1 u.2.2
      if env.roleCreateOk then
        let rr := createSubjectRole o.name o.color f.2.2
        ⟨Except.ok (), f.2.1, rr.2,
          [ApiAction.reply ("Subject " ++ channelUrl f.1 ++ " and role **" ++
            rr.1.name ++ "** created!") false]⟩
      else
        ⟨Except.error (JsError.remote "role creation failed"), f.2.1, f.2.2, []⟩

/-- A thread channel in which `whip-slaves` is invoked: its name and the id
of its parent channel, when any. -/
structure Thread where
  name : String
  parentId : Option Nat
  deriving Repr, DecidableEq

/-- Characters after the first dash of a forum channel name, dropping the
emoji prefix. -/
def afterFirstDash : List Char → List Char
  | [] => []
  | c :: cs => if c = '-' then cs else afterFirstDash cs

/-- Modelled from the spec: src/utils/threadToHelperRole.ts is not under
src/. Derives the owning subject helper role from the thread via the
naming/parent-channel convention: the thread lives in a subject forum channel
whose name is an emoji, a dash, and the subject name, and the helper role is
the lowercased subject name with the helper suffix. Yields the role when the
thread is recognized and none (undefined) otherwise. -/
def helperThreadToRoleName (g : Guild) (t : Thread) : Option Role :=
  (t.parentId.bind (fun pid =>
    g.channels.find? (fun c => c.id == pid && decide (c.type = FORUM_CHANNEL_TYPE)))).bind
    (fun forum =>
      g.roles.find? (fun r =>
        r.name == strToLower (String.mk (afterFirstDash forum.name.data)) ++ "-helper"))

/-- Embeds the condition actually evaluated by `handleWhipSlaves`: the source
writes `if (isHelperThread)` without calling the imported function, and a
JavaScript function value is always truthy, so the branch condition is the
constant true and the refusal branch cannot be taken. -/
def isHelperThreadRefTruthy : Bool := true

/-- Embeds `handleWhipSlaves` of SlaveWhipperService: defers the reply,
derives the thread role, branches on the uncalled `isHelperThread` function
reference, and edits the reply with the role ping; reading `role.id` when no
role was derived is a TypeError on undefined. The refusal reply sits in the
unreachable else branch. -/
def handleWhipSlaves (g : Guild) (t : Thread) :
    Except JsError Unit × List ApiAction :=
  let role := helperThreadToRoleName g t
  if isHelperThreadRefTruthy then
    match role with
    | none => (Except.error JsError.typeError, [ApiAction.deferReply])
    | some r =>
      (Except.ok (),
        [ApiAction.deferReply,
         ApiAction.editReply ("<@&" ++ toString r.id ++ ">, get to work! 𓀓𓀝")])
  else
    (Except.ok (),
      [ApiAction.deferReply,
       ApiAction.editReply "Please don\x27t whip the slaves outside of threads"])

/-- Helper lemma: a failing search over a prefix passes through to the rest. -/
theorem find?_append_of_none {α : Type} {p : α → Bool} {l1 l2 : List α}
    (h : l1.find? p = none) : (l1 ++ l2).find? p = l2.find? p := by
  rw [List.find?_append, h, Option.none_or]

/-- C7: the category resolver returns the id of a channel bearing the fixed
category name and kind; a second resolution through the memoized instance,
and even through a fresh instance, returns the same id without creating
anything further; a channel is added only when the category was absent, so at
most one category is ever created. -/
theorem getCategoryId_singleton (g : Guild) :
    ((getCategoryId ⟨none⟩ g).2.2.channels.find? (fun c =>
        c.id == (getCategoryId ⟨none⟩ g).1 &&
        decide (c.type = CATEGORY_CHANNEL_TYPE) &&
        c.name == CATEGORY_CHANNEL_NAME)).isSome = true
    ∧ (getCategoryId (getCategoryId ⟨none⟩ g).2.1 (getCategoryId ⟨none⟩ g).2.2).1
        = (getCategoryId ⟨none⟩ g).1
    ∧ (getCategoryId (getCategoryId ⟨none⟩ g).2.1 (getCategoryId ⟨none⟩ g).2.2).2.2
        = (getCategoryId ⟨none⟩ g).2.2
    ∧ (getCategoryId ⟨none⟩ (getCategoryId ⟨none⟩ g).2.2).1
        = (getCategoryId ⟨none⟩ g).1
    ∧ (getCategoryId ⟨none⟩ (getCategoryId ⟨none⟩ g).2.2).2.2
        = (getCategoryId ⟨none⟩ g).2.2
    ∧ (getCategoryId ⟨none⟩ g).2.2.channels.length
        = g.channels.length + (if (findCategory g).isSome then 0 else 1) := by
  cases h : findCategory g with
  | some cat =>
    have hmem : cat ∈ g.channels := List.mem_of_find?_eq_some h
    have hpred := List.find?_some h
    simp only [Bool.and_eq_true, decide_eq_true_eq, beq_iff_eq] at hpred
    have h1 : getCategoryId ⟨none⟩ g = (cat.id, ⟨some cat.id⟩, g) := by
      simp [getCategoryId, h]
    rw [h1]
    refine ⟨?_, by simp [getCategoryId], by simp [getCategoryId], ?_, ?_, by simp [h]⟩
    · rw [List.find?_isSome]
      exact ⟨cat, hmem, by simp [hpred.1, hpred.2]⟩
    · rw [h1]
    · rw [h1]
  | none =>
    have h1 : getCategoryId ⟨none⟩ g =
        (g.nextId, ⟨some g.nextId⟩,
          ⟨g.channels ++ [⟨g.nextId, CATEGORY_CHANNEL_NAME, CATEGORY_CHANNEL_TYPE, none⟩],
            g.roles, g.nextId + 1⟩) := by
      simp [getCategoryId, h, channelsCreate]
    have hfresh : findCategory
        (⟨g.channels ++ [⟨g.nextId, CATEGORY_CHANNEL_NAME, CATEGORY_CHANNEL_TYPE, none⟩],
          g.roles, g.nextId + 1⟩ : Guild)
        = some ⟨g.nextId, CATEGORY_CHANNEL_NAME, CATEGORY_CHANNEL_TYPE, none⟩ := by
      unfold findCategory at h ⊢
      rw [find?_append_of_none h]
      simp
    rw [h1]
    refine ⟨?_, by simp [getCategoryId], by simp [getCategoryId],
      by simp [getCategoryId, hfresh], by simp [getCategoryId, hfresh], by simp [h]⟩
    rw [List.find?_isSome]
    exact ⟨⟨g.nextId, CATEGORY_CHANNEL_NAME, CATEGORY_CHANNEL_TYPE, none⟩, by simp, by simp⟩

/-- Helper lemma: removing an element rejected by the predicate from the
middle of a list does not change the first match. -/
theorem find?_middle_of_neg {α : Type} {p : α → Bool} (l1 l2 : List α) (e : α)
    (he : p e = false) : (l1 ++ e :: l2).find? p = (l1 ++ l2).find? p := by
  rw [List.find?_append, List.find?_append, List.find?_cons_of_neg _ (by simp [he])]

/-- Helper lemma: a list extended with an element contains it. -/
theorem contains_append_self (l : List Nat) (a : Nat) :
    (l ++ [a]).contains a = true := by
  simp

/-- C2: evaluation of the timeout path: with no selection event inside the
window, no role is granted and no grant call is issued, but the run ends with
the rethrown timeout error instead of a clean "no action taken" outcome. -/
theorem becomeHelper_timeout_rethrows :
    (handleBecomeHelper ⟨9, "alice", [], []⟩ []
        ⟨[], [⟨5, "math-helper", "#FF0000"⟩], 6⟩).result = Except.error JsError.timeout
    ∧ (handleBecomeHelper ⟨9, "alice", [], []⟩ []
        ⟨[], [⟨5, "math-helper", "#FF0000"⟩], 6⟩).memberRoleIds = []
    ∧ hasAddAction (handleBecomeHelper ⟨9, "alice", [], []⟩ []
        ⟨[], [⟨5, "math-helper", "#FF0000"⟩], 6⟩).actions = false :=
  ⟨rfl, rfl, rfl⟩

/-- C6: a selection event authored by any user other than the requester is
ignored by the collector filter: deleting such an event from the incoming
event stream leaves the entire outcome of the flow (result, final membership,
and performed operations) unchanged. -/
theorem becomeHelper_foreign_selection_ignored (i : Interaction) (g : Guild)
    (es1 es2 : List SelectEvent) (e : SelectEvent) (h : e.userId ≠ i.userId) :
    handleBecomeHelper i (es1 ++ e :: es2) g = handleBecomeHelper i (es1 ++ es2) g := by
  unfold handleBecomeHelper awaitMessageComponent
  rw [find?_middle_of_neg]
  simp only [collectorFilterPasses, beq_eq_false_iff_ne, ne_eq]
  exact h

theorem becomeHelper_foreign_selection_ignored_witness :
    (⟨2, [9]⟩ : SelectEvent).userId ≠ (⟨1, "u", [], []⟩ : Interaction).userId
    ∧ handleBecomeHelper ⟨1, "u", [], []⟩ ([] ++ ⟨2, [9]⟩ :: []) ⟨[], [], 0⟩
        = handleBecomeHelper ⟨1, "u", [], []⟩ ([] ++ []) ⟨[], [], 0⟩ :=
  ⟨by decide, becomeHelper_foreign_selection_ignored ⟨1, "u", [], []⟩ ⟨[], [], 0⟩ [] []
      ⟨2, [9]⟩ (by decide)⟩

/-- C10: the select menu built by the flow permits an empty selection
(minimum of zero values), yet a selection event with zero values makes the
handler dereference an absent role, ending in a TypeError rather than a
defined outcome; no membership change happens. -/
theorem becomeHelper_empty_selection_throws (i : Interaction) (g : Guild)
    (events : List SelectEvent) (ev : SelectEvent)
    (hf : awaitMessageComponent i events = some ev)
    (hempty : ev.values = []) :
    (subjectSelect (helperRolesOf g)).minValues = 0
    ∧ (handleBecomeHelper i events g).result = Except.error JsError.typeError
    ∧ (handleBecomeHelper i events g).memberRoleIds = i.memberRoleIds
    ∧ hasAddAction (handleBecomeHelper i events g).actions = false := by
  refine ⟨rfl, ?_, ?_, ?_⟩ <;>
    simp [handleBecomeHelper, hf, becomeHelperStep, hempty, selectedRoleOf, hasAddAction]

theorem becomeHelper_empty_selection_throws_witness :
    awaitMessageComponent ⟨11, "bob", [], []⟩ [⟨11, ([] : List Nat)⟩]
      = some ⟨11, ([] : List Nat)⟩
    ∧ (⟨11, ([] : List Nat)⟩ : SelectEvent).values = []
    ∧ ((subjectSelect (helperRolesOf ⟨[], [⟨4, "math-helper", "#00FF00"⟩], 5⟩)).minValues = 0
       ∧ (handleBecomeHelper ⟨11, "bob", [], []⟩ [⟨11, ([] : List Nat)⟩]
            ⟨[], [⟨4, "math-helper", "#00FF00"⟩], 5⟩).result = Except.error JsError.typeError
       ∧ (handleBecomeHelper ⟨11, "bob", [], []⟩ [⟨11, ([] : List Nat)⟩]
            ⟨[], [⟨4, "math-helper", "#00FF00"⟩], 5⟩).memberRoleIds
           = (⟨11, "bob", [], []⟩ : Interaction).memberRoleIds
       ∧ hasAddAction (handleBecomeHelper ⟨11, "bob", [], []⟩ [⟨11, ([] : List Nat)⟩]
            ⟨[], [⟨4, "math-helper", "#00FF00"⟩], 5⟩).actions = false) :=
  ⟨rfl, rfl, becomeHelper_empty_selection_throws ⟨11, "bob", [], []⟩
      ⟨[], [⟨4, "math-helper", "#00FF00"⟩], 5⟩ [⟨11, ([] : List Nat)⟩]
      ⟨11, ([] : List Nat)⟩ rfl rfl⟩

/-- C5: idempotence of the enrollment flow with respect to role membership.
When the awaited selection resolves to helper role `sr`: after one run the
requester holds the role; rerunning the flow with the resulting membership
replies that the role is already held, leaves membership unchanged, and
issues no grant call, so two runs with the same user and selection never
grant the role twice; and a requester who already holds the role gets the
already-held reply and no grant on the first run. -/
theorem becomeHelper_idempotent (i : Interaction) (g : Guild)
    (events : List SelectEvent) (ev : SelectEvent) (v : Nat) (sr : HelperRoleEntry)
    (hf : awaitMessageComponent i events = some ev)
    (hv : ev.values.head? = some v)
    (hr : (helperRolesOf g).find? (fun r => r.id == v) = some sr) :
    (handleBecomeHelper i events g).memberRoleIds.contains sr.id = true
    ∧ handleBecomeHelper
        { i with memberRoleIds := (handleBecomeHelper i events g).memberRoleIds } events g
      = { result := Except.ok (),
          memberRoleIds := (handleBecomeHelper i events g).memberRoleIds,
          actions := [ApiAction.replyMenu (subjectSelect (helperRolesOf g)), ApiAction.deleteReply,
                      ApiAction.reply (alreadyHaveMsg sr) true] }
    ∧ hasAddAction (handleBecomeHelper
        { i with memberRoleIds := (handleBecomeHelper i events g).memberRoleIds }
        events g).actions = false
    ∧ (i.memberRoleIds.contains sr.id = true →
        handleBecomeHelper i events g
          = { result := Except.ok (),
              memberRoleIds := i.memberRoleIds,
              actions := [ApiAction.replyMenu (subjectSelect (helperRolesOf g)), ApiAction.deleteReply,
                          ApiAction.reply (alreadyHaveMsg sr) true] }) := by
  have hstep : ∀ m : List Nat,
      handleBecomeHelper { i with memberRoleIds := m } events g
        = becomeHelperStep { i with memberRoleIds := m } g (some ev) := by
    intro m
    unfold handleBecomeHelper
    rw [show awaitMessageComponent { i with memberRoleIds := m } events = some ev from hf]
  have heta : ∀ m : List Nat, m = i.memberRoleIds →
      handleBecomeHelper i events g = becomeHelperStep { i with memberRoleIds := m } g (some ev) := by
    intro m hm
    rw [hm]
    exact hstep i.memberRoleIds
  have hsel : selectedRoleOf (helperRolesOf g) ev.values = some sr := by
    simp [selectedRoleOf, hv, hr]
  cases hhas : i.memberRoleIds.contains sr.id with
  | true =>
    have hmem : sr.id ∈ i.memberRoleIds := by simpa using hhas
    have hout : handleBecomeHelper i events g
        = ⟨Except.ok (), i.memberRoleIds,
            [ApiAction.replyMenu (subjectSelect (helperRolesOf g)), ApiAction.deleteReply,
             ApiAction.reply (alreadyHaveMsg sr) true]⟩ := by
      rw [heta i.memberRoleIds rfl]
      simp [becomeHelperStep, hsel, hmem]
    rw [hout]
    refine ⟨hhas, ?_, ?_, fun _ => rfl⟩
    · rw [hstep]
      simp [becomeHelperStep, hsel, hmem]
    · rw [hstep]
      simp [becomeHelperStep, hsel, hmem, hasAddAction]
  | false =>
    have hmem : sr.id ∉ i.memberRoleIds := by simpa using hhas
    have hout : handleBecomeHelper i events g
        = ⟨Except.ok (), i.memberRoleIds ++ [sr.id],
            [ApiAction.replyMenu (subjectSelect (helperRolesOf g)), ApiAction.deleteReply,
             ApiAction.addRoleToMember i.userId sr.id,
             ApiAction.reply (helperCongratsPrivate sr) true,
             ApiAction.followUp (helperCongratsPublic i.userDisplayName sr)]⟩ := by
      rw [heta i.memberRoleIds rfl]
      simp [becomeHelperStep, hsel, hmem]
    rw [hout]
    refine ⟨by simp, ?_, ?_, ?_⟩
    · rw [hstep]
      simp [becomeHelperStep, hsel, hasAddAction]
    · rw [hstep]
      simp [becomeHelperStep, hsel, hasAddAction]
    · intro hcontra
      simp at hcontra

/-- C1: evaluation at the failing input for the duplicate check: with a
channel named "calculus-math-study" under the category, creating subject
"Math" should abort as a duplicate, but the uniqueness check still reports
the name unique (the filter result is discarded through the uncalled
`.values` method reference) and the operation succeeds, creating a channel
and a role. -/
theorem createSubject_duplicate_not_detected :
    specHasDuplicate
      ⟨[⟨0, CATEGORY_CHANNEL_NAME, ChannelType.category, none⟩,
        ⟨1, "calculus-math-study", ChannelType.forum, some 0⟩], [], 2⟩ 0 "Math" = true
    ∧ (duplicateChannels
        ⟨[⟨0, CATEGORY_CHANNEL_NAME, ChannelType.category, none⟩,
          ⟨1, "calculus-math-study", ChannelType.forum, some 0⟩], [], 2⟩ 0 "Math").length = 1
    ∧ (isSubjectNameUnique "Math" ⟨none⟩
        ⟨[⟨0, CATEGORY_CHANNEL_NAME, ChannelType.category, none⟩,
          ⟨1, "calculus-math-study", ChannelType.forum, some 0⟩], [], 2⟩).1 = true
    ∧ (handleCreateSubject ⟨7, "mod", [("name", "Math"), ("color", "#00FF00"), ("emoji", "🧮")], []⟩
        ⟨true⟩ ⟨none⟩
        ⟨[⟨0, CATEGORY_CHANNEL_NAME, ChannelType.category, none⟩,
          ⟨1, "calculus-math-study", ChannelType.forum, some 0⟩], [], 2⟩).result = Except.ok ()
    ∧ (handleCreateSubject ⟨7, "mod", [("name", "Math"), ("color", "#00FF00"), ("emoji", "🧮")], []⟩
        ⟨true⟩ ⟨none⟩
        ⟨[⟨0, CATEGORY_CHANNEL_NAME, ChannelType.category, none⟩,
          ⟨1, "calculus-math-study", ChannelType.forum, some 0⟩], [], 2⟩).guild.channels.length = 3
    ∧ (handleCreateSubject ⟨7, "mod", [("name", "Math"), ("color", "#00FF00"), ("emoji", "🧮")], []⟩
        ⟨true⟩ ⟨none⟩
        ⟨[⟨0, CATEGORY_CHANNEL_NAME, ChannelType.category, none⟩,
          ⟨1, "calculus-math-study", ChannelType.forum, some 0⟩], [], 2⟩).guild.roles.length = 1 :=
  ⟨rfl, rfl, rfl, rfl, rfl, rfl⟩

/-- C4: with valid options and no channel under the existing category whose
name contains the candidate (case-insensitively), `handleCreateSubject`
succeeds, creating exactly one forum channel named from the emoji and name
under the category and exactly one role named from the lowercased name with
the helper suffix and the given color, and the reply references the channel
url and the role name. -/
theorem handleCreateSubject_success (i : Interaction) (g : Guild) (cat : Channel)
    (o : Options)
    (hv : helperSchemaValidate i.optionsData = Except.ok o)
    (hc : findCategory g = some cat)
    (hnd : specHasDuplicate g cat.id o.name = false) :
    handleCreateSubject i ⟨true⟩ ⟨none⟩ g =
      { result := Except.ok ()
        service := ⟨some cat.id⟩
        guild := ⟨g.channels ++
            [⟨g.nextId, o.emoji ++ "-" ++ o.name, FORUM_CHANNEL_TYPE, some cat.id⟩],
          g.roles ++ [⟨g.nextId + 1, strToLower o.name ++ "-helper", o.color⟩],
          g.nextId + 2⟩
        actions := [ApiAction.reply ("Subject " ++
            channelUrl ⟨g.nextId, o.emoji ++ "-" ++ o.name, FORUM_CHANNEL_TYPE, some cat.id⟩ ++
            " and role **" ++ (strToLower o.name ++ "-helper") ++ "** created!") false] } := by
  simp [handleCreateSubject, hv, isSubjectNameUnique, valuesMethodParamCount,
        getCategoryId, hc, createSubjectForum, createSubjectRole, channelsCreate,
        rolesCreate]

theorem handleCreateSubject_success_witness :
    helperSchemaValidate
        ((⟨3, "mod", [("name", "Biology"), ("color", "#00FF00"), ("emoji", "🧬")], []⟩ :
          Interaction)).optionsData
      = Except.ok ⟨"Biology", "#00FF00", "🧬"⟩
    ∧ findCategory ⟨[⟨0, CATEGORY_CHANNEL_NAME, ChannelType.category, none⟩], [], 1⟩
      = some ⟨0, CATEGORY_CHANNEL_NAME, ChannelType.category, none⟩
    ∧ specHasDuplicate ⟨[⟨0, CATEGORY_CHANNEL_NAME, ChannelType.category, none⟩], [], 1⟩
        0 "Biology" = false
    ∧ handleCreateSubject ⟨3, "mod", [("name", "Biology"), ("color", "#00FF00"), ("emoji", "🧬")], []⟩
        ⟨true⟩ ⟨none⟩ ⟨[⟨0, CATEGORY_CHANNEL_NAME, ChannelType.category, none⟩], [], 1⟩
      = { result := Except.ok ()
          service := ⟨some 0⟩
          guild := ⟨[⟨0, CATEGORY_CHANNEL_NAME, ChannelType.category, none⟩] ++
              [⟨1, "🧬" ++ "-" ++ "Biology", FORUM_CHANNEL_TYPE, some 0⟩],
            [] ++ [⟨1 + 1, strToLower "Biology" ++ "-helper", "#00FF00"⟩],
            1 + 2⟩
          actions := [ApiAction.reply ("Subject " ++
              channelUrl ⟨1, "🧬" ++ "-" ++ "Biology", FORUM_CHANNEL_TYPE, some 0⟩ ++
              " and role **" ++ (strToLower "Biology" ++ "-helper") ++ "** created!") false] } :=
  ⟨rfl, rfl, rfl,
    handleCreateSubject_success
      ⟨3, "mod", [("name", "Biology"), ("color", "#00FF00"), ("emoji", "🧬")], []⟩
      ⟨[⟨0, CATEGORY_CHANNEL_NAME, ChannelType.category, none⟩], [], 1⟩
      ⟨0, CATEGORY_CHANNEL_NAME, ChannelType.category, none⟩
      ⟨"Biology", "#00FF00", "🧬"⟩ rfl rfl rfl⟩

/-- C8: when option validation fails, the validation message is surfaced to
the requester in a reply and the operation aborts by rethrowing the error
with the guild unchanged: no category, channel, or role is created. -/
theorem handleCreateSubject_validation_aborts (i : Interaction) (env : RemoteEnv)
    (s : SubjectHelperSvc) (g : Guild) (msg : String)
    (hv : helperSchemaValidate i.optionsData = Except.error msg) :
    handleCreateSubject i env s g =
      ⟨Except.error (JsError.thrown msg), s, g,
        [ApiAction.reply ("Error: " ++ msg) true]⟩ := by
  simp [handleCreateSubject, hv]

theorem handleCreateSubject_validation_aborts_witness :
    helperSchemaValidate
        ((⟨2, "x", [("color", "#00FF00")], []⟩ : Interaction)).optionsData
      = Except.error "name is a required field"
    ∧ handleCreateSubject ⟨2, "x", [("color", "#00FF00")], []⟩ ⟨true⟩ ⟨none⟩ ⟨[], [], 0⟩
      = ⟨Except.error (JsError.thrown "name is a required field"), ⟨none⟩, ⟨[], [], 0⟩,
          [ApiAction.reply ("Error: " ++ "name is a required field") true]⟩ :=
  ⟨rfl, handleCreateSubject_validation_aborts ⟨2, "x", [("color", "#00FF00")], []⟩
      ⟨true⟩ ⟨none⟩ ⟨[], [], 0⟩ "name is a required field" rfl⟩

/-- C9: no rollback on partial failure: when the forum channel has been
created and the subsequent role creation fails, the remote failure propagates
as the outcome with no further reply, the created channel remains in the
guild, and no role is created — no compensating deletion happens. -/
theorem handleCreateSubject_noRollback (i : Interaction) (g : Guild) (cat : Channel)
    (o : Options)
    (hv : helperSchemaValidate i.optionsData = Except.ok o)
    (hc : findCategory g = some cat) :
    handleCreateSubject i ⟨false⟩ ⟨none⟩ g =
      { result := Except.error (JsError.remote "role creation failed")
        service := ⟨some cat.id⟩
        guild := ⟨g.channels ++
            [⟨g.nextId, o.emoji ++ "-" ++ o.name, FORUM_CHANNEL_TYPE, some cat.id⟩],
          g.roles, g.nextId + 1⟩
        actions := [] } := by
  simp [handleCreateSubject, hv, isSubjectNameUnique, valuesMethodParamCount,
        getCategoryId, hc, createSubjectForum, channelsCreate]

theorem handleCreateSubject_noRollback_witness :
    helperSchemaValidate
        ((⟨3, "mod", [("name", "Chem"), ("color", "#112233"), ("emoji", "🧪")], []⟩ :
          Interaction)).optionsData
      = Except.ok ⟨"Chem", "#112233", "🧪"⟩
    ∧ findCategory ⟨[⟨0, CATEGORY_CHANNEL_NAME, ChannelType.category, none⟩], [], 1⟩
      = some ⟨0, CATEGORY_CHANNEL_NAME, ChannelType.category, none⟩
    ∧ handleCreateSubject ⟨3, "mod", [("name", "Chem"), ("color", "#112233"), ("emoji", "🧪")], []⟩
        ⟨false⟩ ⟨none⟩ ⟨[⟨0, CATEGORY_CHANNEL_NAME, ChannelType.category, none⟩], [], 1⟩
      = { result := Except.error (JsError.remote "role creation failed")
          service := ⟨some 0⟩
          guild := ⟨[⟨0, CATEGORY_CHANNEL_NAME, ChannelType.category, none⟩] ++
              [⟨1, "🧪" ++ "-" ++ "Chem", FORUM_CHANNEL_TYPE, some 0⟩],
            [], 1 + 1⟩
          actions := [] } :=
  ⟨rfl, rfl,
    handleCreateSubject_noRollback
      ⟨3, "mod", [("name", "Chem"), ("color", "#112233"), ("emoji", "🧪")], []⟩
      ⟨[⟨0, CATEGORY_CHANNEL_NAME, ChannelType.category, none⟩], [], 1⟩
      ⟨0, CATEGORY_CHANNEL_NAME, ChannelType.category, none⟩
      ⟨"Chem", "#112233", "🧪"⟩ rfl rfl⟩

/-- C3: the recognition branch of `handleWhipSlaves` tests the uncalled
`isHelperThread` function reference, which is always truthy, so the refusal
branch is unreachable: in a thread the derivation does recognize, the role
ping is posted, but in an unrecognized thread the handler ends in a TypeError
reading the id of the undefined role instead of posting the refusal
message. -/
theorem whipSlaves_refusal_unreachable :
    isHelperThreadRefTruthy = true
    ∧ helperThreadToRoleName ⟨[], [], 0⟩ ⟨"random-thread", none⟩ = none
    ∧ handleWhipSlaves ⟨[], [], 0⟩ ⟨"random-thread", none⟩
        = (Except.error JsError.typeError, [ApiAction.deferReply])
    ∧ handleWhipSlaves
        ⟨[⟨1, "🧮-Math", ChannelType.forum, some 0⟩], [⟨2, "math-helper", "#00FF00"⟩], 3⟩
        ⟨"a question", some 1⟩
        = (Except.ok (),
            [ApiAction.deferReply,
             ApiAction.editReply ("<@&" ++ toString (2 : Nat) ++ ">, get to work! 𓀓𓀝")]) :=
  ⟨rfl, rfl, rfl, rfl⟩

theorem becomeHelper_idempotent_witness :
    awaitMessageComponent ⟨11, "bob", [], []⟩ [⟨11, [4]⟩] = some ⟨11, [4]⟩
    ∧ (⟨11, [4]⟩ : SelectEvent).values.head? = some 4
    ∧ (helperRolesOf ⟨[], [⟨4, "math-helper", "#00FF00"⟩], 5⟩).find? (fun r => r.id == 4)
        = some ⟨4, "math-helper", "Math"⟩
    ∧ ((handleBecomeHelper ⟨11, "bob", [], []⟩ [⟨11, [4]⟩]
          ⟨[], [⟨4, "math-helper", "#00FF00"⟩], 5⟩).memberRoleIds.contains
          (⟨4, "math-helper", "Math"⟩ : HelperRoleEntry).id = true
       ∧ handleBecomeHelper
           { (⟨11, "bob", [], []⟩ : Interaction) with
             memberRoleIds := (handleBecomeHelper ⟨11, "bob", [], []⟩ [⟨11, [4]⟩]
               ⟨[], [⟨4, "math-helper", "#00FF00"⟩], 5⟩).memberRoleIds }
           [⟨11, [4]⟩] ⟨[], [⟨4, "math-helper", "#00FF00"⟩], 5⟩
         = { result := Except.ok (),
             memberRoleIds := (handleBecomeHelper ⟨11, "bob", [], []⟩ [⟨11, [4]⟩]
               ⟨[], [⟨4, "math-helper", "#00FF00"⟩], 5⟩).memberRoleIds,
             actions := [ApiAction.replyMenu (subjectSelect (helperRolesOf
                 ⟨[], [⟨4, "math-helper", "#00FF00"⟩], 5⟩)), ApiAction.deleteReply,
               ApiAction.reply (alreadyHaveMsg ⟨4, "math-helper", "Math"⟩) true] }
       ∧ hasAddAction (handleBecomeHelper
           { (⟨11, "bob", [], []⟩ : Interaction) with
             memberRoleIds := (handleBecomeHelper ⟨11, "bob", [], []⟩ [⟨11, [4]⟩]
               ⟨[], [⟨4, "math-helper", "#00FF00"⟩], 5⟩).memberRoleIds }
           [⟨11, [4]⟩] ⟨[], [⟨4, "math-helper", "#00FF00"⟩], 5⟩).actions = false
       ∧ ((⟨11, "bob", [], []⟩ : Interaction).memberRoleIds.contains
            (⟨4, "math-helper", "Math"⟩ : HelperRoleEntry).id = true →
          handleBecomeHelper ⟨11, "bob", [], []⟩ [⟨11, [4]⟩]
              ⟨[], [⟨4, "math-helper", "#00FF00"⟩], 5⟩
            = { result := Except.ok (),
                memberRoleIds := (⟨11, "bob", [], []⟩ : Interaction).memberRoleIds,
                actions := [ApiAction.replyMenu (subjectSelect (helperRolesOf
                    ⟨[], [⟨4, "math-helper", "#00FF00"⟩], 5⟩)), ApiAction.deleteReply,
                  ApiAction.reply (alreadyHaveMsg ⟨4, "math-helper", "Math"⟩) true] })) :=
  ⟨rfl, rfl, rfl,
    becomeHelper_idempotent ⟨11, "bob", [], []⟩ ⟨[], [⟨4, "math-helper", "#00FF00"⟩], 5⟩
      [⟨11, [4]⟩] ⟨11, [4]⟩ 4 ⟨4, "math-helper", "Math"⟩ rfl rfl rfl⟩
